import Mathlib

/-!
Verification of the conversion-delivery subsystem of the marketin-wix-app
repository: a shallow embedding of the conversion queue
(src/services/conversionQueue.service.js, required as src/db/knex.js in the
packed sources), the Wix order payload parser and attribution resolver
(src/controllers/orderWebhook.controller.js), and the visitor session
tracking endpoints (src/controllers/visitorSession.controller.js).

Database tables are modelled as Lean lists of records; timestamps are
integers (milliseconds); JavaScript values reaching the parser are modelled
by an inductive JS value type with explicit undefined, null and NaN.
Randomness (crypto.randomUUID) is modelled by passing the fresh identifier
as an explicit argument.
-/

namespace Marketin

/-! ## Conversion queue data model (migrations/0004_conversion_queue.js) -/

inductive JobStatus where
  | pending
  | processing
  | completed
  | failed
  | dead
deriving DecidableEq, Repr

/-- The part of the conversion payload that `enqueueConversion` inspects.
`none` models an absent / null / undefined (falsy) field. -/
structure ConversionPayload where
  brandId : Option String
  externalOrderId : Option String
deriving DecidableEq, Repr

/-- One row of the `conversion_queue` table. -/
structure Job where
  id : Nat
  job_id : String
  status : JobStatus
  attempts : Nat
  max_attempts : Nat
  next_retry_at : Int
  payload : ConversionPayload
  last_error : Option String
  error_code : Option String
  order_webhook_id : Option Nat
  created_at : Int
  last_attempted_at : Option Int
  completed_at : Option Int
deriving DecidableEq, Repr

/-- One row of the `conversion_failures` table (fields written by `logFailure`). -/
structure FailureRecord where
  queue_id : Nat
  job_id : String
  error_message : String
  error_code : String
  http_status : Option Nat
deriving DecidableEq, Repr

/-- One alert sent through `alertService.sendConversionFailureAlert`. -/
structure Alert where
  jobId : String
  error : String
  attempts : Nat
deriving DecidableEq, Repr

/-- Retry delays in seconds: 30s, 2m, 8m, 32m, 2h (conversionQueue.service.js). -/
def BACKOFF_DELAYS : List Nat := [30, 120, 480, 1920, 7200]

def MAX_ATTEMPTS : Nat := 5

/-! ## enqueueConversion -/

/-- JavaScript template-literal interpolation of a possibly-undefined field:
an absent field prints as the string "undefined". -/
def interpField : Option String → String
  | some s => s
  | none => "undefined"

/-- The job id computed at the top of `enqueueConversion`:
`conversionPayload.externalOrderId ? conv_(brandId)_(orderId) : conv_(randomUUID())`.
Only `externalOrderId` is tested; `brandId` is interpolated unchecked. -/
def computeJobId (p : ConversionPayload) (fresh : String) : String :=
  match p.externalOrderId with
  | some o => "conv_" ++ interpField p.brandId ++ "_" ++ o
  | none => "conv_" ++ fresh

structure EnqueueResult where
  jobId : String
  status : JobStatus
  message : String
deriving DecidableEq, Repr

def findJob (table : List Job) (jid : String) : Option Job :=
  table.find? (fun j => j.job_id == jid)

/-- `enqueueConversion(conversionPayload, orderWebhookId)`: checks for an
existing row with the same `job_id` and returns it unmodified, otherwise
inserts a fresh pending row. `fresh` is the random UUID, `now` the current
time, `nextId` the autoincrement id the insert would receive. -/
def enqueueConversion (table : List Job) (p : ConversionPayload)
    (orderWebhookId : Option Nat) (fresh : String) (now : Int) (nextId : Nat) :
    EnqueueResult × List Job :=
  let jobId := computeJobId p fresh
  match findJob table jobId with
  | some existing =>
    if existing.status = .completed ∨ existing.status = .dead then
      ({ jobId := jobId, status := existing.status, message := "Already processed" }, table)
    else
      ({ jobId := jobId, status := existing.status, message := "Already queued" }, table)
  | none =>
    let job : Job :=
      { id := nextId
        job_id := jobId
        status := .pending
        attempts := 0
        max_attempts := MAX_ATTEMPTS
        next_retry_at := now
        payload := p
        last_error := none
        error_code := none
        order_webhook_id := orderWebhookId
        created_at := now
        last_attempted_at := none
        completed_at := none }
    ({ jobId := jobId, status := .pending, message := "Queued" }, table ++ [job])

/-! ## Error classification -/

/-- A delivery error thrown by `sendConversionDirect`: optional HTTP status
(`err.response.status`), message, and optional `err.code`. -/
structure DeliveryError where
  httpStatus : Option Nat
  message : String
  code : Option String
deriving DecidableEq, Repr

/-- `isRetryableError(err)`, branch for branch from the source. -/
def isRetryableError (status : Option Nat) : Bool :=
  match status with
  | none => true
  | some s =>
    if 500 ≤ s then true
    else if s = 429 then true
    else if s = 408 then true
    else if 400 ≤ s ∧ s < 500 then false
    else true

/-- `err?.code || (httpStatus ? HTTP_(status) : UNKNOWN)`. -/
def errorCodeOf (e : DeliveryError) : String :=
  match e.code with
  | some c => c
  | none =>
    match e.httpStatus with
    | some s => "HTTP_" ++ toString s
    | none => "UNKNOWN"

/-! ## processQueue -/

/-- The three tables the queue mutates: jobs, failure log, alerts sent. -/
structure QueueState where
  table : List Job
  failures : List FailureRecord
  alerts : List Alert
deriving DecidableEq, Repr

structure BatchResults where
  processed : Nat
  succeeded : Nat
  failed : Nat
  dead : Nat
deriving DecidableEq, Repr

/-- `UPDATE conversion_queue SET ... WHERE id = id`. -/
def updateJob (table : List Job) (id : Nat) (f : Job → Job) : List Job :=
  table.map (fun j => if j.id = id then f j else j)

/-- The catch-block of `processQueue` for one job: classify, then either
schedule a retry (status failed, backoff) or dead-letter (status dead,
failure row, alert). Returns the new state and whether a retry was
scheduled. -/
def handleFailure (st : QueueState) (job : Job) (e : DeliveryError) (now : Int) :
    QueueState × Bool :=
  let attempts := job.attempts + 1
  let errorCode := errorCodeOf e
  let shouldRetry := isRetryableError e.httpStatus ∧ attempts < MAX_ATTEMPTS
  if shouldRetry then
    let delaySeconds := BACKOFF_DELAYS.getD (min (attempts - 1) (BACKOFF_DELAYS.length - 1)) 0
    let nextRetryAt := now + (delaySeconds : Int) * 1000
    ({ st with
        table := updateJob st.table job.id (fun j =>
          { j with
              status := .failed
              attempts := attempts
              next_retry_at := nextRetryAt
              last_error := some e.message
              error_code := some errorCode }) },
      true)
  else
    ({ st with
        table := updateJob st.table job.id (fun j =>
          { j with
              status := .dead
              attempts := attempts
              last_error := some e.message
              error_code := some errorCode })
        failures := st.failures ++
          [{ queue_id := job.id
             job_id := job.job_id
             error_message := e.message
             error_code := errorCode
             http_status := e.httpStatus }]
        alerts := st.alerts ++
          [{ jobId := job.job_id, error := e.message, attempts := attempts }] },
      false)

/-- The WHERE clause of the batch select:
status in (pending, failed) AND next_retry_at <= now AND attempts < MAX_ATTEMPTS. -/
def dueFilter (now : Int) (j : Job) : Bool :=
  (j.status = .pending ∨ j.status = .failed) ∧ j.next_retry_at ≤ now ∧
    j.attempts < MAX_ATTEMPTS

/-- Stable insertion into a list sorted by `next_retry_at` ascending. -/
def insertByRetry (j : Job) : List Job → List Job
  | [] => [j]
  | x :: xs => if j.next_retry_at < x.next_retry_at then j :: x :: xs else x :: insertByRetry j xs

/-- ORDER BY next_retry_at ASC (stable). -/
def sortByRetry : List Job → List Job
  | [] => []
  | x :: xs => insertByRetry x (sortByRetry xs)

/-- The batch snapshot the select returns. -/
def selectBatch (table : List Job) (now : Int) (batchSize : Nat) : List Job :=
  (sortByRetry (table.filter (dueFilter now))).take batchSize

/-- The delivery attempt outcome of `sendConversionDirect(payload)`. -/
inductive AttemptOutcome where
  | success
  | failure (e : DeliveryError)

/-- Loop body of `processQueue` for one snapshot job. -/
def processOne (deliver : ConversionPayload → AttemptOutcome) (now : Int)
    (acc : QueueState × BatchResults) (job : Job) : QueueState × BatchResults :=
  let st := acc.1
  let res := acc.2
  let res := { res with processed := res.processed + 1 }
  let st := { st with
    table := updateJob st.table job.id (fun j =>
      { j with status := .processing, last_attempted_at := some now }) }
  match deliver job.payload with
  | .success =>
    ({ st with
        table := updateJob st.table job.id (fun j =>
          { j with
              status := .completed
              attempts := job.attempts + 1
              completed_at := some now }) },
      { res with succeeded := res.succeeded + 1 })
  | .failure e =>
    let r := handleFailure st job e now
    if r.2 then (r.1, { res with failed := res.failed + 1 })
    else (r.1, { res with dead := res.dead + 1 })

/-- `processQueue(batchSize)`: select the due batch, then process each job
sequentially. `deliver` is the external API client. -/
def processQueue (st : QueueState) (deliver : ConversionPayload → AttemptOutcome)
    (now : Int) (batchSize : Nat) : QueueState × BatchResults :=
  (selectBatch st.table now batchSize).foldl (processOne deliver now)
    (st, { processed := 0, succeeded := 0, failed := 0, dead := 0 })

/-! ## Two concurrent processQueue calls (interleaving model)

Node.js awaits between the batch SELECT and each per-job UPDATE, so two
concurrent `processQueue` invocations interleave at those await points. Each
micro-step below is one database round-trip of the source; per-job
processing is kept as one step (coarser interleaving only removes
schedules, so any bad schedule exhibited here is one the source admits). -/

/-- A worker either has not yet run its batch SELECT, or holds its snapshot
of jobs still to process. -/
structure ConcState where
  qs : QueueState
  deliveries : List String
  w1 : Option (List Job)
  w2 : Option (List Job)
deriving Repr

inductive ConcStep where
  | select1
  | select2
  | proc1
  | proc2
deriving DecidableEq, Repr

/-- One worker processes the next job of its snapshot (successful delivery):
unconditional UPDATE to processing, send (recorded in `deliveries`),
unconditional UPDATE to completed — exactly the source's statements. -/
def concProcOne (qs : QueueState) (deliveries : List String) (job : Job)
    (now : Int) : QueueState × List String :=
  let qs1 := { qs with
    table := updateJob qs.table job.id (fun j =>
      { j with status := .processing, last_attempted_at := some now }) }
  let deliveries1 := deliveries ++ [job.job_id]
  let qs2 := { qs1 with
    table := updateJob qs1.table job.id (fun j =>
      { j with
          status := .completed
          attempts := job.attempts + 1
          completed_at := some now }) }
  (qs2, deliveries1)

def concStep (now : Int) (batchSize : Nat) (st : ConcState) : ConcStep → ConcState
  | .select1 =>
    match st.w1 with
    | none => { st with w1 := some (selectBatch st.qs.table now batchSize) }
    | some _ => st
  | .select2 =>
    match st.w2 with
    | none => { st with w2 := some (selectBatch st.qs.table now batchSize) }
    | some _ => st
  | .proc1 =>
    match st.w1 with
    | some (j :: rest) =>
      let r := concProcOne st.qs st.deliveries j now
      { st with qs := r.1, deliveries := r.2, w1 := some rest }
    | _ => st
  | .proc2 =>
    match st.w2 with
    | some (j :: rest) =>
      let r := concProcOne st.qs st.deliveries j now
      { st with qs := r.1, deliveries := r.2, w2 := some rest }
    | _ => st

def runSchedule (now : Int) (batchSize : Nat) (st : ConcState)
    (steps : List ConcStep) : ConcState :=
  steps.foldl (concStep now batchSize) st

/-! ## retryDeadJob -/

structure RetryResult where
  success : Bool
  message : String
deriving DecidableEq, Repr

/-- `retryDeadJob(jobId)`: find a row with this job_id AND status dead;
reset it to pending with attempts 0 and cleared error fields, else fail. -/
def retryDeadJob (table : List Job) (jobId : String) (now : Int) :
    RetryResult × List Job :=
  match table.find? (fun j => j.job_id == jobId ∧ j.status = .dead) with
  | none => ({ success := false, message := "Job not found or not dead" }, table)
  | some job =>
    ({ success := true, message := "Job requeued" },
      updateJob table job.id (fun j =>
        { j with
            status := .pending
            attempts := 0
            next_retry_at := now
            last_error := none
            error_code := none }))

/-! ## Visitor sessions (visitorSession.controller.js)

One row of the `visitor_sessions` table. `none` models SQL NULL (and an
absent / falsy request field); `metadata` (a JSON string in the source) is
modelled structurally. -/

structure SessionMetadata where
  email : Option String
  phone : Option String
  customerId : Option String
  orderId : Option String
deriving DecidableEq, Repr

structure VisitorSession where
  session_id : String
  site_id : Option String
  visitor_id : Option String
  affiliate_id : Option String
  campaign_id : Option String
  product_id : Option String
  landing_url : Option String
  referrer_url : Option String
  utm_source : Option String
  utm_medium : Option String
  utm_campaign : Option String
  utm_content : Option String
  utm_term : Option String
  metadata : Option SessionMetadata
  expires_at : Int
  created_at : Int
  updated_at : Int
deriving DecidableEq, Repr

/-- Request body of POST /track/session (fields the handler reads). -/
structure TrackRequest where
  sessionId : Option String
  visitorId : Option String
  siteId : Option String
  affiliateId : Option String
  campaignId : Option String
  productId : Option String
  landingUrl : Option String
  referrerUrl : Option String
  utm_source : Option String
  utm_medium : Option String
  utm_campaign : Option String
  utm_content : Option String
  utm_term : Option String
deriving DecidableEq, Repr

structure TrackResponse where
  httpStatus : Nat
  status : String
  sessionId : String
deriving DecidableEq, Repr

/-- JavaScript `a || b` on nullable fields. -/
def jsOr (a b : Option String) : Option String :=
  match a with
  | some s => some s
  | none => b

def sessionTTLms (ttlDays : Int) : Int := ttlDays * 24 * 60 * 60 * 1000

/-- `trackSession`: upsert keyed on session_id. On update, every listed
field is written as (new value || existing value) and `expires_at` is
refreshed; on miss a fresh row is inserted. `fresh` is the generated UUID
used when the request carries no sessionId. -/
def trackSession (store : List VisitorSession) (req : TrackRequest)
    (fresh : String) (now : Int) (ttlDays : Int) :
    List VisitorSession × TrackResponse :=
  let finalSessionId := req.sessionId.getD fresh
  let expiresAt := now + sessionTTLms ttlDays
  match store.find? (fun s => s.session_id == finalSessionId) with
  | some _ =>
    (store.map (fun s =>
        if s.session_id == finalSessionId then
          { s with
              affiliate_id := jsOr req.affiliateId s.affiliate_id
              campaign_id := jsOr req.campaignId s.campaign_id
              product_id := jsOr req.productId s.product_id
              utm_source := jsOr req.utm_source s.utm_source
              utm_medium := jsOr req.utm_medium s.utm_medium
              utm_campaign := jsOr req.utm_campaign s.utm_campaign
              utm_content := jsOr req.utm_content s.utm_content
              utm_term := jsOr req.utm_term s.utm_term
              expires_at := expiresAt
              updated_at := now }
        else s),
      { httpStatus := 200, status := "updated", sessionId := finalSessionId })
  | none =>
    (store ++
        [{ session_id := finalSessionId
           site_id := req.siteId
           visitor_id := req.visitorId
           affiliate_id := req.affiliateId
           campaign_id := req.campaignId
           product_id := req.productId
           landing_url := req.landingUrl
           referrer_url := req.referrerUrl
           utm_source := req.utm_source
           utm_medium := req.utm_medium
           utm_campaign := req.utm_campaign
           utm_content := req.utm_content
           utm_term := req.utm_term
           metadata := none
           expires_at := expiresAt
           created_at := now
           updated_at := now }],
      { httpStatus := 201, status := "created", sessionId := finalSessionId })

/-- Request body of POST /visitor/identify. -/
structure IdentifyRequest where
  sessionId : Option String
  visitorId : Option String
  siteId : Option String
  email : Option String
  phone : Option String
  customerId : Option String
  orderId : Option String
  affiliateId : Option String
  campaignId : Option String
  productId : Option String
deriving DecidableEq, Repr

structure IdentifyResponse where
  httpStatus : Nat
  status : String
  sessionId : Option String
  affiliateId : Option String
  campaignId : Option String
deriving DecidableEq, Repr

/-- ORDER BY created_at DESC ... LIMIT 1 over a filtered list: the first
row of maximal `created_at`. -/
def mostRecent (rows : List VisitorSession) : Option VisitorSession :=
  rows.foldl (fun acc s =>
    match acc with
    | none => some s
    | some a => if a.created_at < s.created_at then some s else acc) none

/-- `identifyVisitor`: find the session by sessionId, else the most recent
by visitorId (scoped to siteId when given); if found, fill
affiliate/campaign/product only when currently NULL and merge metadata;
else insert a fresh identified row. -/
def identifyVisitor (store : List VisitorSession) (req : IdentifyRequest)
    (fresh : String) (now : Int) (ttlDays : Int) :
    List VisitorSession × IdentifyResponse :=
  if req.sessionId = none ∧ req.visitorId = none then
    (store,
      { httpStatus := 400, status := "error", sessionId := none
        affiliateId := none, campaignId := none })
  else
    let bySession :=
      match req.sessionId with
      | some sid => store.find? (fun s => s.session_id == sid)
      | none => none
    let session :=
      match bySession with
      | some s => some s
      | none =>
        match req.visitorId with
        | some vid =>
          mostRecent (store.filter (fun s =>
            s.visitor_id == some vid &&
              (match req.siteId with
               | some site => s.site_id == some site
               | none => true)))
        | none => none
    match session with
    | some s =>
      let newMeta : SessionMetadata :=
        let old := s.metadata.getD
          { email := none, phone := none, customerId := none, orderId := none }
        { email := jsOr req.email old.email
          phone := jsOr req.phone old.phone
          customerId := jsOr req.customerId old.customerId
          orderId := jsOr req.orderId old.orderId }
      (store.map (fun r =>
          if r.session_id == s.session_id then
            { r with
                affiliate_id :=
                  if req.affiliateId.isSome ∧ s.affiliate_id = none then
                    req.affiliateId
                  else r.affiliate_id
                campaign_id :=
                  if req.campaignId.isSome ∧ s.campaign_id = none then
                    req.campaignId
                  else r.campaign_id
                product_id :=
                  if req.productId.isSome ∧ s.product_id = none then
                    req.productId
                  else r.product_id
                metadata := some newMeta
                updated_at := now }
          else r),
        { httpStatus := 200, status := "identified", sessionId := some s.session_id
          affiliateId := jsOr req.affiliateId s.affiliate_id
          campaignId := jsOr req.campaignId s.campaign_id })
    | none =>
      let newSessionId := req.sessionId.getD fresh
      (store ++
          [{ session_id := newSessionId
             site_id := req.siteId
             visitor_id := req.visitorId
             affiliate_id := req.affiliateId
             campaign_id := req.campaignId
             product_id := req.productId
             landing_url := none
             referrer_url := none
             utm_source := none
             utm_medium := none
             utm_campaign := none
             utm_content := none
             utm_term := none
             metadata := some
               { email := req.email, phone := req.phone
                 customerId := req.customerId, orderId := req.orderId }
             expires_at := now + sessionTTLms ttlDays
             created_at := now
             updated_at := now }],
        { httpStatus := 201, status := "created_and_identified"
          sessionId := some newSessionId
          affiliateId := req.affiliateId
          campaignId := req.campaignId })

/-- The result rows of `findAffiliateByVisitor`. -/
structure SessionAttribution where
  affiliateId : String
  campaignId : Option String
  productId : Option String
  source : String
deriving DecidableEq, Repr

/-- `findAffiliateByVisitor({siteId, visitorId, email, sessionId})`: three
prioritized lookups, each restricted to non-expired rows with a non-null
affiliate. -/
def findAffiliateByVisitor (store : List VisitorSession)
    (siteId visitorId sessionId : Option String) (now : Int) :
    Option SessionAttribution :=
  let hit1 : Option VisitorSession :=
    match sessionId with
    | some sid =>
      store.find? (fun s =>
        s.session_id == sid && decide (now < s.expires_at) && s.affiliate_id.isSome)
    | none => none
  match hit1 with
  | some s =>
    some { affiliateId := s.affiliate_id.getD ""
           campaignId := s.campaign_id
           productId := s.product_id
           source := "session" }
  | none =>
    let hit2 :=
      match visitorId with
      | some vid =>
        mostRecent (store.filter (fun s =>
          s.visitor_id == some vid &&
            (match siteId with
             | some site => s.site_id == some site
             | none => true) &&
            decide (now < s.expires_at) && s.affiliate_id.isSome))
      | none => none
    match hit2 with
    | some s =>
      some { affiliateId := s.affiliate_id.getD ""
             campaignId := s.campaign_id
             productId := s.product_id
             source := "visitor_id" }
    | none =>
      let hit3 :=
        match siteId with
        | some site =>
          let cutoff := now - 24 * 60 * 60 * 1000
          mostRecent (store.filter (fun s =>
            s.site_id == some site && decide (now < s.expires_at) &&
              decide (cutoff < s.created_at) && s.affiliate_id.isSome))
        | none => none
      match hit3 with
      | some s =>
        some { affiliateId := s.affiliate_id.getD ""
               campaignId := s.campaign_id
               productId := s.product_id
               source := "site_recent" }
      | none => none

/-! ## JavaScript value model for the order payload parser

`parseWixOrderPayload` receives an arbitrary JavaScript value. The model
has explicit undefined, null and NaN; numbers are integers (the claims only
exercise integral values; JS parseFloat fractions are truncated, noted at
`leadingIntOf`). `Except` marks the points where the JavaScript would throw
a TypeError. -/

inductive JSVal where
  | undef
  | null
  | bool (b : Bool)
  | num (n : Int)
  | nan
  | str (s : String)
  | arr (elems : List JSVal)
  | obj (fields : List (String × JSVal))
deriving Repr

def JSVal.isNullish : JSVal → Bool
  | .undef => true
  | .null => true
  | _ => false

/-- JavaScript truthiness. -/
def truthy : JSVal → Bool
  | .undef => false
  | .null => false
  | .bool b => b
  | .num n => n != 0
  | .nan => false
  | .str s => s != ""
  | .arr _ => true
  | .obj _ => true

/-- Property read `v.k` on a value known (or checked) to be non-nullish,
and the optional-chain read `v?.k`: a missing key, or a base which is a
primitive or an array, yields undefined. -/
def jsGet (v : JSVal) (k : String) : JSVal :=
  match v with
  | .obj fields => (((fields.find? (fun p => p.1 == k)).map (fun p => p.2)).getD .undef)
  | _ => (.undef)

/-- JavaScript `a || b`. -/
def jsOrV (a b : JSVal) : JSVal := if truthy a then a else b

mutual

/-- Template-literal / String() coercion. -/
def toJSString : JSVal → String
  | .undef => "undefined"
  | .null => "null"
  | .bool true => "true"
  | .bool false => "false"
  | .num n => toString n
  | .nan => "NaN"
  | .str s => s
  | .arr xs => arrElemsString xs
  | .obj _ => "[object Object]"
termination_by structural v => v

/-- Array.prototype.toString: elements joined by commas, null/undefined
elements printing as empty. -/
def arrElemsString : List JSVal → String
  | [] => ""
  | [x] =>
    match x with
    | .undef => ""
    | .null => ""
    | v => toJSString v
  | x :: y :: xs =>
    (match x with
     | .undef => ""
     | .null => ""
     | v => toJSString v) ++ "," ++ arrElemsString (y :: xs)
termination_by structural l => l

end

def digitsToNat (cs : List Char) : Nat :=
  cs.foldl (fun acc c => acc * 10 + (c.toNat - Char.toNat '0')) 0

/-- The leading integer of a string after whitespace and an optional sign —
the integral core of JS parseFloat / parseInt(·, 10). Fractional parts are
not represented (numbers are modelled as integers). -/
def leadingIntOf (s : String) : Option Int :=
  let cs := s.data.dropWhile (fun c => c.isWhitespace)
  let signAndRest : Int × List Char :=
    match cs with
    | '-' :: rest => (-1, rest)
    | '+' :: rest => (1, rest)
    | rest => (1, rest)
  let ds := signAndRest.2.takeWhile (fun c => c.isDigit)
  if ds.isEmpty then none else some (signAndRest.1 * (digitsToNat ds : Int))

/-- `parseFloat(v)` (integral model): coerce to string, parse the leading
number, NaN on failure. -/
def parseFloatJS (v : JSVal) : JSVal :=
  match leadingIntOf (toJSString v) with
  | some n => .num n
  | none => .nan

/-- `parseInt(v, 10)` (integral model): same leading-digits parse. -/
def parseIntJS (v : JSVal) : JSVal :=
  match leadingIntOf (toJSString v) with
  | some n => .num n
  | none => .nan

/-! ### The buyer-note regex /(?:ref|aid|affiliate)[=:]?\s*([A-Za-z0-9_-]+)/i

Leftmost match, alternatives in source order at each position; since the
separator, whitespace and capture character classes are pairwise disjoint,
greedy matching without backtracking coincides with the regex engine. -/

def isWordChar (c : Char) : Bool :=
  (Char.toNat 'a' ≤ c.toNat && c.toNat ≤ Char.toNat 'z') ||
    (Char.toNat 'A' ≤ c.toNat && c.toNat ≤ Char.toNat 'Z') ||
    (Char.toNat '0' ≤ c.toNat && c.toNat ≤ Char.toNat '9') ||
    c == '_' || c == '-'

/-- Case-insensitively strip a (lowercase) key from the head of the input. -/
def stripKeyCI (key : List Char) (cs : List Char) : Option (List Char) :=
  match key, cs with
  | [], rest => some rest
  | _ :: _, [] => none
  | k :: ks, c :: rest => if c.toLower == k then stripKeyCI ks rest else none

/-- After the key: optional `=` or `:`, whitespace, then the captured run of
word characters (at least one). -/
def matchAfterKey (cs : List Char) : Option String :=
  let cs1 :=
    match cs with
    | c :: rest => if c == '=' || c == ':' then rest else c :: rest
    | [] => []
  let cs2 := cs1.dropWhile (fun c => c.isWhitespace)
  let cap := cs2.takeWhile isWordChar
  if cap.isEmpty then none else some (String.mk cap)

def tryKeyAt (key : List Char) (cs : List Char) : Option String :=
  (stripKeyCI key cs).bind matchAfterKey

def refNoteScan : List Char → Option String
  | [] => none
  | c :: rest =>
    match tryKeyAt ['r', 'e', 'f'] (c :: rest) with
    | some cap => some cap
    | none =>
      match tryKeyAt ['a', 'i', 'd'] (c :: rest) with
      | some cap => some cap
      | none =>
        match tryKeyAt ['a', 'f', 'f', 'i', 'l', 'i', 'a', 't', 'e'] (c :: rest) with
        | some cap => some cap
        | none => refNoteScan rest

/-- `buyerNote.match(...)` with the capture group extracted. -/
def refRegexMatch (s : String) : Option String := refNoteScan s.data

/-! ### The site-url regex /\/([a-f0-9-]+)\// (no flags) -/

def isHexDash (c : Char) : Bool :=
  (Char.toNat 'a' ≤ c.toNat && c.toNat ≤ Char.toNat 'f') ||
    (Char.toNat '0' ≤ c.toNat && c.toNat ≤ Char.toNat '9') || c == '-'

def siteUrlScan : List Char → Option String
  | [] => none
  | c :: rest =>
    if c == '/' then
      let cap := rest.takeWhile isHexDash
      if cap.isEmpty then siteUrlScan rest
      else
        match rest.drop cap.length with
        | '/' :: _ => some (String.mk cap)
        | _ => siteUrlScan rest
    else siteUrlScan rest

/-! ## parseWixOrderPayload (orderWebhook.controller.js) -/

structure ProductItem where
  externalProductId : JSVal
  name : JSVal
  price : JSVal
  quantity : JSVal
  currency : JSVal
deriving Repr

structure CanonicalOrder where
  orderId : JSVal
  orderNumber : JSVal
  totalAmount : JSVal
  currency : JSVal
  customerEmail : JSVal
  customerName : JSVal
  affiliateId : JSVal
  campaignId : JSVal
  sessionId : JSVal
  visitorId : JSVal
  siteId : JSVal
  products : List ProductItem
  eventType : JSVal
  raw : JSVal
deriving Repr

/-- `const order = body.data?.order || body.order || body`. -/
def resolveOrder (body : JSVal) : JSVal :=
  jsOrV (jsOrV (jsGet (jsGet body "data") "order") (jsGet body "order")) body

def orderIdVal (body order : JSVal) : JSVal :=
  jsOrV (jsGet body "entityId") (jsOrV (jsGet order "id") (jsOrV (jsGet order "_id")
    (jsOrV (jsGet order "orderId") (jsOrV (jsGet order "order_id") .null))))

def orderNumberVal (order : JSVal) : JSVal :=
  jsOrV (jsGet order "number") (jsOrV (jsGet order "orderNumber") .null)

/-- The totalAmount / currency cascade; returns (totalAmount, currency),
totalAmount JS-null when no branch fires, currency defaulting to "USD". -/
def priceInfo (order : JSVal) : JSVal × JSVal :=
  if truthy (jsGet order "totalPrice") then
    let tp := jsGet order "totalPrice"
    (parseFloatJS (jsOrV (jsGet tp "amount") tp), jsOrV (jsGet tp "currency") (.str "USD"))
  else if truthy (jsGet order "total") then
    let t := jsGet order "total"
    (parseFloatJS (jsOrV (jsGet t "amount") t), jsOrV (jsGet t "currency") (.str "USD"))
  else if truthy (jsGet (jsGet order "totals") "total") then
    (parseFloatJS (jsGet (jsGet order "totals") "total"),
      jsOrV (jsGet order "currency") (.str "USD"))
  else if truthy (jsGet (jsGet order "priceSummary") "total") then
    let t := jsGet (jsGet order "priceSummary") "total"
    (parseFloatJS (jsOrV (jsGet t "amount") t), jsOrV (jsGet t "currency") (.str "USD"))
  else (.null, .str "USD")

def billingInfoVal (order : JSVal) : JSVal :=
  jsOrV (jsGet order "billingInfo") (jsOrV (jsGet order "buyerInfo")
    (jsOrV (jsGet order "buyer") (.obj [])))

def customerEmailVal (order bi : JSVal) : JSVal :=
  jsOrV (jsGet bi "email") (jsOrV (jsGet bi "emailAddress")
    (jsOrV (jsGet order "buyerEmail") (jsOrV (jsGet order "email") .null)))

/-- JS String.prototype.trim: strip whitespace from both ends. -/
def trimJS (s : String) : String :=
  String.mk (((s.data.dropWhile (fun c => c.isWhitespace)).reverse.dropWhile
    (fun c => c.isWhitespace)).reverse)

def customerNameVal (bi : JSVal) : JSVal :=
  let concatenated :=
    trimJS (toJSString (jsOrV (jsGet bi "firstName") (.str "")) ++ " " ++
      toJSString (jsOrV (jsGet bi "lastName") (.str "")))
  jsOrV (jsGet bi "fullName") (jsOrV (jsGet bi "name") (jsOrV (.str concatenated) .null))

/-- `order.buyerNote || order.note || order.customerNote || ''`. -/
def buyerNoteVal (order : JSVal) : JSVal :=
  jsOrV (jsGet order "buyerNote") (jsOrV (jsGet order "note")
    (jsOrV (jsGet order "customerNote") (.str "")))

/-- Attribution source 1: the buyer-note regex. `.match` on a truthy
non-string value is the JS TypeError. On a string: the capture when the
regex matches, else the initial null. -/
def extractNoteAffiliate (order : JSVal) : Except String JSVal :=
  match buyerNoteVal order with
  | .str s =>
    .ok (match refRegexMatch s with
         | some cap => .str cap
         | none => .null)
  | _ => .error "TypeError: buyerNote.match is not a function"

def customFieldsVal (order bi : JSVal) : JSVal :=
  jsOrV (jsGet order "customFields") (jsOrV (jsGet order "additionalFields")
    (jsOrV (jsGet bi "customFields") (.obj [])))

def strInList (v : JSVal) (names : List String) : Bool :=
  match v with
  | .str s => names.contains s
  | _ => false

/-- Attribution source 4, one loop iteration: reading `field.name` of a
nullish array entry is the JS TypeError. -/
def buyerCFStep (acc : JSVal × JSVal × JSVal) (field : JSVal) :
    Except String (JSVal × JSVal × JSVal) :=
  if field.isNullish then .error "TypeError: cannot read name of nullish field"
  else
    let nm := jsOrV (jsGet field "name") (jsGet field "key")
    let v := jsGet field "value"
    let a := if strInList nm ["aid", "affiliate_id", "affiliateId", "ref"] then
        jsOrV acc.1 v else acc.1
    let c := if strInList nm ["cid", "campaign_id", "campaignId"] then
        jsOrV acc.2.1 v else acc.2.1
    let s := if strInList nm ["sid", "session_id", "sessionId"] then
        jsOrV acc.2.2 v else acc.2.2
    .ok (a, c, s)

def buyerCFFold (acc : JSVal × JSVal × JSVal) :
    List JSVal → Except String (JSVal × JSVal × JSVal)
  | [] => .ok acc
  | f :: rest =>
    match buyerCFStep acc f with
    | .error e => .error e
    | .ok acc2 => buyerCFFold acc2 rest

/-- Attribution source 4: `order.buyerInfo?.customFields || []`, looped only
when it is an array. -/
def extractBuyerCF (order : JSVal) (acc : JSVal × JSVal × JSVal) :
    Except String (JSVal × JSVal × JSVal) :=
  match jsOrV (jsGet (jsGet order "buyerInfo") "customFields") (.arr []) with
  | .arr fields => buyerCFFold acc fields
  | _ => .ok acc

/-- One line item; reading `item.productId` of a nullish entry is the JS
TypeError. -/
def parseProductItem (currency : JSVal) (item : JSVal) : Except String ProductItem :=
  if item.isNullish then .error "TypeError: cannot read productId of nullish item"
  else
    .ok { externalProductId :=
            jsOrV (jsGet item "productId") (jsOrV (jsGet item "product_id")
              (jsOrV (jsGet (jsGet item "catalogReference") "catalogItemId")
                (jsGet item "id")))
          name := jsOrV (jsGet item "name") (jsOrV (jsGet item "productName")
            (jsOrV (jsGet item "title") (.str "Unknown Product")))
          price := parseFloatJS (jsOrV (jsGet (jsGet item "price") "amount")
            (jsOrV (jsGet item "price")
              (jsOrV (jsGet (jsGet item "priceData") "price") (.num 0))))
          quantity := parseIntJS (jsOrV (jsGet item "quantity") (.num 1))
          currency := jsOrV (jsGet (jsGet item "price") "currency")
            (jsOrV (jsGet item "currency") currency) }

def productsFold (currency : JSVal) : List JSVal → Except String (List ProductItem)
  | [] => .ok []
  | x :: xs =>
    match parseProductItem currency x with
    | .error e => .error e
    | .ok p =>
      match productsFold currency xs with
      | .error e => .error e
      | .ok ps => .ok (p :: ps)

/-- `(order.lineItems || order.items || order.products || []).map(...)`:
calling `.map` on a truthy non-array is the JS TypeError. -/
def extractProducts (order : JSVal) (currency : JSVal) :
    Except String (List ProductItem) :=
  match jsOrV (jsGet order "lineItems") (jsOrV (jsGet order "items")
      (jsOrV (jsGet order "products") (.arr []))) with
  | .arr items => productsFold currency items
  | _ => .error "TypeError: rawLineItems.map is not a function"

/-- `order.channelInfo?.externalOrderUrl?.match(...)?.[1] || null`:
undefined-propagation when the url is nullish, TypeError when it is
present but not a string. -/
def siteUrlPart (u : JSVal) : Except String JSVal :=
  if u.isNullish then .ok .null
  else
    match u with
    | .str s =>
      match siteUrlScan s.data with
      | some cap => .ok (jsOrV (.str cap) .null)
      | none => .ok .null
    | _ => .error "TypeError: externalOrderUrl.match is not a function"

/-- The siteId cascade; the url `.match` is short-circuited by any earlier
truthy source. -/
def extractSiteId (body order : JSVal) : Except String JSVal :=
  if truthy (jsGet order "siteId") then .ok (jsGet order "siteId")
  else if truthy (jsGet body "siteId") then .ok (jsGet body "siteId")
  else if truthy (jsGet body "instanceId") then .ok (jsGet body "instanceId")
  else siteUrlPart (jsGet (jsGet order "channelInfo") "externalOrderUrl")

def visitorIdVal (order cf : JSVal) : JSVal :=
  jsOrV (jsGet (jsGet order "buyerInfo") "visitorId")
    (jsOrV (jsGet order "visitorId") (jsOrV (jsGet cf "visitorId") .null))

def eventTypeVal (body : JSVal) : JSVal :=
  jsOrV (jsGet body "eventType") (jsOrV (jsGet body "event_type") (.str "OrderPaid"))

/-- Attribution sources 2 (structured custom fields) and 3 (channel info)
folded over the buyer-note result `a1`: the (affiliate, campaign, session)
accumulator that attribution source 4 then updates. -/
def attribStage23 (body : JSVal) (a1 : JSVal) : JSVal × JSVal × JSVal :=
  let order := resolveOrder body
  let cf := customFieldsVal order (billingInfoVal order)
  let ci := jsOrV (jsGet order "channelInfo") (.obj [])
  (jsOrV (jsOrV a1 (jsOrV (jsGet cf "aid") (jsOrV (jsGet cf "affiliateId")
      (jsOrV (jsGet cf "affiliate_id") (jsGet cf "ref")))))
    (jsOrV (jsGet ci "affiliateId") (jsGet ci "externalOrderId")),
   jsOrV (jsGet cf "cid") (jsOrV (jsGet cf "campaignId") (jsGet cf "campaign_id")),
   jsOrV (jsGet cf "sessionId") (jsOrV (jsGet cf "session_id") (jsGet cf "sid")))

/-- `parseWixOrderPayload(body)`. Property access on a nullish `body`
(`body.data`) is the first possible TypeError; the remaining throw sites
are the four marked helpers, in source order. -/
def parseWixOrderPayload (body : JSVal) : Except String CanonicalOrder :=
  if body.isNullish then .error "TypeError: cannot read data of nullish body"
  else
    match extractNoteAffiliate (resolveOrder body) with
    | .error e => .error e
    | .ok a1 =>
      match extractBuyerCF (resolveOrder body) (attribStage23 body a1) with
      | .error e => .error e
      | .ok acc =>
        match extractProducts (resolveOrder body) (priceInfo (resolveOrder body)).2 with
        | .error e => .error e
        | .ok products =>
          match extractSiteId body (resolveOrder body) with
          | .error e => .error e
          | .ok siteId =>
            .ok { orderId := orderIdVal body (resolveOrder body)
                  orderNumber := orderNumberVal (resolveOrder body)
                  totalAmount := (priceInfo (resolveOrder body)).1
                  currency := (priceInfo (resolveOrder body)).2
                  customerEmail := customerEmailVal (resolveOrder body)
                    (billingInfoVal (resolveOrder body))
                  customerName := customerNameVal (billingInfoVal (resolveOrder body))
                  affiliateId := acc.1
                  campaignId := acc.2.1
                  sessionId := acc.2.2
                  visitorId := visitorIdVal (resolveOrder body)
                    (customFieldsVal (resolveOrder body) (billingInfoVal (resolveOrder body)))
                  siteId := siteId
                  products := products
                  eventType := eventTypeVal body
                  raw := body }

/-! ## resolveAffiliate (orderWebhook.controller.js) -/

/-- One stored row of `order_webhooks`: the serialized payload text the
LIKE-search runs over, the parsed value (`none` when JSON.parse would
throw — those rows are skipped), and the insertion timestamp. -/
structure StoredWebhook where
  payloadText : String
  payloadVal : Option JSVal
  created_at : Int

structure Attribution where
  affiliateId : JSVal
  campaignId : JSVal
  source : String
deriving Repr

/-- `payload LIKE ?` with a %substring% pattern (ASCII case-folding of
SQLite LIKE not modelled; no claim depends on it). -/
def strContainsSub (text pat : String) : Bool :=
  decide (List.IsInfix pat.data text.data)

def insertWebhookDesc (w : StoredWebhook) : List StoredWebhook → List StoredWebhook
  | [] => [w]
  | x :: xs =>
    if x.created_at < w.created_at then w :: x :: xs else x :: insertWebhookDesc w xs

/-- ORDER BY created_at DESC (stable). -/
def sortWebhooksDesc : List StoredWebhook → List StoredWebhook
  | [] => []
  | x :: xs => insertWebhookDesc x (sortWebhooksDesc xs)

/-- Step-3 loop: re-parse each candidate row; parse errors are caught and
ignored; first row that itself resolves an affiliateId wins. -/
def historicScan (parsedCampaign : JSVal) : List StoredWebhook → Option Attribution
  | [] => none
  | r :: rest =>
    match r.payloadVal with
    | none => historicScan parsedCampaign rest
    | some v =>
      match parseWixOrderPayload v with
      | .error _ => historicScan parsedCampaign rest
      | .ok historic =>
        if truthy historic.affiliateId then
          some { affiliateId := historic.affiliateId
                 campaignId := jsOrV historic.campaignId parsedCampaign
                 source := "historic_order" }
        else historicScan parsedCampaign rest

/-- Bridge from a parsed-order field (a JS value) to a knex query key:
falsy values skip the lookup, other values bind their string coercion. -/
def keyOfJS (v : JSVal) : Option String :=
  if truthy v then some (toJSString v) else none

def optToJS : Option String → JSVal
  | some s => .str s
  | none => .null

/-- `resolveAffiliate(parsedOrder)` against a session store and the stored
webhooks table. -/
def resolveAffiliate (sessions : List VisitorSession) (webhooks : List StoredWebhook)
    (now : Int) (parsedOrder : CanonicalOrder) : Option Attribution :=
  if truthy parsedOrder.affiliateId then
    some { affiliateId := parsedOrder.affiliateId
           campaignId := parsedOrder.campaignId
           source := "order_direct" }
  else
    let sessionResult := findAffiliateByVisitor sessions (keyOfJS parsedOrder.siteId)
      (keyOfJS parsedOrder.visitorId) (keyOfJS parsedOrder.sessionId) now
    match sessionResult with
    | some r =>
      if truthy (.str r.affiliateId) then
        some { affiliateId := .str r.affiliateId
               campaignId := jsOrV (optToJS r.campaignId) parsedOrder.campaignId
               source := r.source }
      else
        historicStep sessions webhooks parsedOrder
    | none => historicStep sessions webhooks parsedOrder
where
  historicStep (_sessions : List VisitorSession) (webhooks : List StoredWebhook)
      (parsedOrder : CanonicalOrder) : Option Attribution :=
    if truthy parsedOrder.customerEmail then
      let rows := (sortWebhooksDesc (webhooks.filter (fun w =>
        strContainsSub w.payloadText (toJSString parsedOrder.customerEmail)))).take 10
      historicScan parsedOrder.campaignId rows
    else none

/-! ## Derived notions and sample values used in the statements -/

/-- Number of rows with a given job id. -/
def countJob (table : List Job) (jid : String) : Nat :=
  (table.filter (fun j => j.job_id == jid)).length

/-- The unique constraint of migration 0004 on `conversion_queue.job_id`. -/
def NoDupIds (table : List Job) : Prop := (table.map Job.job_id).Nodup

/-- The spec sentence of C4, taken literally: the job id is the
deterministic concatenation when BOTH brandId and externalOrderId are
present, and the random identifier otherwise. -/
def jobIdClaimedBehavior : Prop :=
  ∀ (p : ConversionPayload) (fresh : String),
    computeJobId p fresh =
      match p.brandId, p.externalOrderId with
      | some b, some o => "conv_" ++ b ++ "_" ++ o
      | _, _ => "conv_" ++ fresh

def demoPayload : ConversionPayload :=
  { brandId := some "123", externalOrderId := some "order-001" }

/-- The pending job that enqueueing `demoPayload` at time 0 inserts. -/
def demoJob : Job := (enqueueConversion [] demoPayload none "f" 0 1).2.getD 0
  { id := 1, job_id := "", status := .pending, attempts := 0, max_attempts := MAX_ATTEMPTS
    next_retry_at := 0, payload := demoPayload, last_error := none, error_code := none
    order_webhook_id := none, created_at := 0, last_attempted_at := none, completed_at := none }

def err503 : DeliveryError := { httpStatus := some 503, message := "Service Unavailable", code := none }

def err400 : DeliveryError := { httpStatus := some 400, message := "Bad Request", code := none }

/-- Run `processQueue` against a client that always throws 503. -/
def step503 (st : QueueState) (now : Int) : QueueState :=
  (processQueue st (fun _ => .failure err503) now 10).1

/-- The conditions under which none of the parser's JavaScript throw sites
fires: a non-nullish payload, a string (or absent) buyer note, non-nullish
buyer custom-field entries, an array (or absent) line-items value with
non-nullish items, and a channel-info url that is a string or nullish
unless an earlier siteId source short-circuits it. -/
def WellShapedPayload (body : JSVal) : Prop :=
  body.isNullish = false ∧
  (∃ s, buyerNoteVal (resolveOrder body) = .str s) ∧
  (∀ fields, jsOrV (jsGet (jsGet (resolveOrder body) "buyerInfo") "customFields") (.arr []) =
      .arr fields → ∀ f ∈ fields, f.isNullish = false) ∧
  (∃ items, jsOrV (jsGet (resolveOrder body) "lineItems")
      (jsOrV (jsGet (resolveOrder body) "items")
        (jsOrV (jsGet (resolveOrder body) "products") (.arr []))) = .arr items ∧
    ∀ i ∈ items, i.isNullish = false) ∧
  (truthy (jsGet (resolveOrder body) "siteId") = true ∨
    truthy (jsGet body "siteId") = true ∨
    truthy (jsGet body "instanceId") = true ∨
    (jsGet (jsGet (resolveOrder body) "channelInfo") "externalOrderUrl").isNullish = true ∨
    ∃ s, jsGet (jsGet (resolveOrder body) "channelInfo") "externalOrderUrl" = .str s)

/-- Webhook body of end-to-end scenario 6:
buyerNote "ref=AFF123,cid=CAMP456" and no other attribution fields. -/
def noteDemoBody : JSVal :=
  .obj [("buyerNote", .str "ref=AFF123,cid=CAMP456"), ("entityId", .str "wix-1")]

/-- A stored session that already carries attribution. -/
def sessDemo : VisitorSession :=
  { session_id := "s1", site_id := some "site-1", visitor_id := some "v1"
    affiliate_id := some "AFF_OLD", campaign_id := some "CAMP_OLD", product_id := none
    landing_url := none, referrer_url := none
    utm_source := some "google", utm_medium := none, utm_campaign := none
    utm_content := none, utm_term := none, metadata := none
    expires_at := 1000000, created_at := 0, updated_at := 0 }

/-- A dead-lettered job used to exercise `retryDeadJob`. -/
def deadDemoJob : Job :=
  { id := 7, job_id := "conv_123_order-001", status := .dead, attempts := 5
    max_attempts := MAX_ATTEMPTS, next_retry_at := 100, payload := demoPayload
    last_error := some "Bad Request", error_code := some "HTTP_400"
    order_webhook_id := none, created_at := 0, last_attempted_at := some 50
    completed_at := none }

def trackDemoReq : TrackRequest :=
  { sessionId := some "s1", visitorId := none, siteId := none
    affiliateId := some "AFF_NEW", campaignId := some "CAMP_NEW", productId := none
    landingUrl := none, referrerUrl := none
    utm_source := some "bing", utm_medium := none, utm_campaign := none
    utm_content := none, utm_term := none }

/-! ## Helper lemmas -/

theorem findJob_eq_none_iff (t : List Job) (jid : String) :
    findJob t jid = none ↔ jid ∉ t.map Job.job_id := by
  rw [findJob, List.find?_eq_none]
  constructor
  · intro h hmem
    obtain ⟨j, hj, hjid⟩ := List.mem_map.mp hmem
    exact h j hj (by simp [hjid])
  · intro h j hj hbeq
    exact h (List.mem_map.mpr ⟨j, hj, by simpa using hbeq⟩)

theorem findJob_mem (t : List Job) (jid : String) (e : Job)
    (h : findJob t jid = some e) : e ∈ t ∧ e.job_id = jid := by
  refine ⟨List.mem_of_find?_eq_some h, ?_⟩
  simpa using List.find?_some h

theorem countJob_eq_zero_of_not_mem (t : List Job) (jid : String)
    (h : jid ∉ t.map Job.job_id) : countJob t jid = 0 := by
  rw [countJob, List.length_eq_zero, List.filter_eq_nil_iff]
  intro a ha hbeq
  exact h (List.mem_map.mpr ⟨a, ha, by simpa using hbeq⟩)

theorem countJob_append (t₁ t₂ : List Job) (jid : String) :
    countJob (t₁ ++ t₂) jid = countJob t₁ jid + countJob t₂ jid := by
  simp [countJob, List.filter_append]

theorem countJob_cons (x : Job) (xs : List Job) (jid : String) :
    countJob (x :: xs) jid = (if x.job_id = jid then 1 else 0) + countJob xs jid := by
  by_cases h : x.job_id = jid
  · simp [countJob, List.filter_cons, h, Nat.add_comm]
  · simp [countJob, List.filter_cons, h]

theorem countJob_eq_one_of_nodup (t : List Job) (jid : String) (e : Job)
    (hnd : NoDupIds t) (he : e ∈ t) (hid : e.job_id = jid) : countJob t jid = 1 := by
  induction t with
  | nil => cases he
  | cons x xs ih =>
    rw [NoDupIds, List.map_cons, List.nodup_cons] at hnd
    rw [countJob_cons]
    rcases List.mem_cons.mp he with rfl | hmem
    · rw [if_pos hid]
      have h0 : countJob xs jid = 0 :=
        countJob_eq_zero_of_not_mem xs jid (hid ▸ hnd.1)
      omega
    · have hx : x.job_id ≠ jid := by
        intro hxx
        exact hnd.1 (hxx ▸ List.mem_map.mpr ⟨e, hmem, hid⟩)
      rw [if_neg hx, ih hnd.2 hmem]

theorem findJob_append (t l : List Job) (jid : String) :
    findJob (t ++ l) jid = (findJob t jid).or (findJob l jid) := by
  simp [findJob, List.find?_append]

/-! ## C3: error classification -/

/-- C3: an error is classified retryable iff it has no HTTP status, or the
status is ≥ 500, 429, 408, or outside 400‥499; equivalently it is fatal
exactly for statuses in [400, 500) other than 429 and 408. -/
theorem isRetryableError_characterization (st : Option Nat) :
    (isRetryableError st = true ↔
      st = none ∨ ∃ s, st = some s ∧
        (500 ≤ s ∨ s = 429 ∨ s = 408 ∨ ¬(400 ≤ s ∧ s < 500))) ∧
    (isRetryableError st = false ↔
      ∃ s, st = some s ∧ 400 ≤ s ∧ s < 500 ∧ s ≠ 429 ∧ s ≠ 408) := by
  cases st with
  | none => simp [isRetryableError]
  | some s =>
    rw [isRetryableError]
    constructor
    · constructor
      · intro h
        refine Or.inr ⟨s, rfl, ?_⟩
        by_cases h1 : 500 ≤ s
        · exact Or.inl h1
        · by_cases h2 : s = 429
          · exact Or.inr (Or.inl h2)
          · by_cases h3 : s = 408
            · exact Or.inr (Or.inr (Or.inl h3))
            · refine Or.inr (Or.inr (Or.inr ?_))
              intro hrange
              rw [if_neg h1, if_neg h2, if_neg h3, if_pos hrange] at h
              exact Bool.false_ne_true h
      · rintro (h | ⟨s₂, hs, hcase⟩)
        · exact absurd h (by simp)
        · obtain rfl : s₂ = s := by injection hs.symm
          rcases hcase with h1 | h2 | h3 | h4
          · rw [if_pos h1]
          · rw [h2]; rfl
          · rw [h3]; rfl
          · by_cases h1 : 500 ≤ s₂
            · rw [if_pos h1]
            · have h2 : s₂ ≠ 429 := fun hc => h4 (by omega)
              have h3 : s₂ ≠ 408 := fun hc => h4 (by omega)
              rw [if_neg h1, if_neg h2, if_neg h3, if_neg h4]
    · constructor
      · intro h
        refine ⟨s, rfl, ?_⟩
        by_cases h1 : 500 ≤ s
        · rw [if_pos h1] at h; exact absurd h (by simp)
        · by_cases h2 : s = 429
          · rw [if_neg h1, if_pos h2] at h; exact absurd h (by simp)
          · by_cases h3 : s = 408
            · rw [if_neg h1, if_neg h2, if_pos h3] at h; exact absurd h (by simp)
            · by_cases h4 : 400 ≤ s ∧ s < 500
              · exact ⟨h4.1, h4.2, h2, h3⟩
              · rw [if_neg h1, if_neg h2, if_neg h3, if_neg h4] at h
                exact absurd h (by simp)
      · rintro ⟨s₂, hs, hlo, hhi, h429, h408⟩
        obtain rfl : s₂ = s := by injection hs.symm
        have h1 : ¬ 500 ≤ s₂ := by omega
        rw [if_neg h1, if_neg h429, if_neg h408, if_pos ⟨hlo, hhi⟩]

/-! ## C4: job id derivation -/

/-- C4 counterexample: the literal claim — random whenever either field is
absent — fails at a payload with a present externalOrderId but no brandId:
the code still derives the deterministic id "conv_undefined_order-001". -/
theorem jobIdClaimedBehavior_false : ¬ jobIdClaimedBehavior := by
  intro h
  have h1 := h { brandId := none, externalOrderId := some "order-001" } "r1"
  rw [computeJobId] at h1
  simp only [interpField] at h1
  exact absurd h1 (by decide)

/-- C4 amended: the job id is deterministic whenever `externalOrderId` is
present — equal to "conv_" ++ brandId ++ "_" ++ externalOrderId with an
absent brandId interpolated as the string "undefined" — and is the random
identifier exactly when `externalOrderId` is absent. -/
theorem computeJobId_amended (p : ConversionPayload) (fresh₁ fresh₂ : String) :
    (∀ o, p.externalOrderId = some o →
      computeJobId p fresh₁ = "conv_" ++ interpField p.brandId ++ "_" ++ o ∧
        computeJobId p fresh₁ = computeJobId p fresh₂) ∧
    (p.externalOrderId = none → computeJobId p fresh₁ = "conv_" ++ fresh₁) := by
  constructor
  · intro o ho
    constructor <;> simp [computeJobId, ho]
  · intro ho
    simp [computeJobId, ho]

/-- Witness for C4's amended theorem at concrete payloads. -/
theorem computeJobId_amended_witness :
    computeJobId { brandId := some "123", externalOrderId := some "order-001" } "r1" =
        "conv_123_order-001" ∧
      computeJobId { brandId := none, externalOrderId := some "order-001" } "r1" =
        computeJobId { brandId := none, externalOrderId := some "order-001" } "r2" := by
  have h1 := (computeJobId_amended
    { brandId := some "123", externalOrderId := some "order-001" } "r1" "r2").1
    "order-001" rfl
  have h2 := (computeJobId_amended
    { brandId := none, externalOrderId := some "order-001" } "r1" "r2").1
    "order-001" rfl
  exact ⟨h1.1, h2.2⟩

/-! ## C1: idempotent enqueue -/

theorem enqueueConversion_of_found (table : List Job) (p : ConversionPayload)
    (ow : Option Nat) (fresh : String) (now : Int) (nid : Nat) (e : Job)
    (h : findJob table (computeJobId p fresh) = some e) :
    (enqueueConversion table p ow fresh now nid).1.jobId = computeJobId p fresh ∧
    (enqueueConversion table p ow fresh now nid).1.status = e.status ∧
    (enqueueConversion table p ow fresh now nid).2 = table := by
  unfold enqueueConversion
  simp only [h]
  refine ⟨?_, ?_, ?_⟩ <;> split <;> rfl

theorem enqueueConversion_of_new (table : List Job) (p : ConversionPayload)
    (ow : Option Nat) (fresh : String) (now : Int) (nid : Nat)
    (h : findJob table (computeJobId p fresh) = none) :
    (enqueueConversion table p ow fresh now nid).1 =
      { jobId := computeJobId p fresh, status := .pending, message := "Queued" } ∧
    (enqueueConversion table p ow fresh now nid).2 = table ++
      [{ id := nid, job_id := computeJobId p fresh, status := .pending, attempts := 0
         max_attempts := MAX_ATTEMPTS, next_retry_at := now, payload := p
         last_error := none, error_code := none, order_webhook_id := ow
         created_at := now, last_attempted_at := none, completed_at := none }] := by
  unfold enqueueConversion
  simp only [h]
  constructor <;> trivial

/-- C1: with `externalOrderId` present, enqueueing the same payload twice
yields the same jobId, the second call returns the existing row's status
and leaves the table unchanged, exactly one row carries that jobId, and
the unique-jobId invariant is preserved. -/
theorem enqueueConversion_idempotent (table : List Job) (p : ConversionPayload)
    (ow₁ ow₂ : Option Nat) (f₁ f₂ : String) (t₁ t₂ : Int) (n₁ n₂ : Nat)
    (ho : ∃ o, p.externalOrderId = some o) (hnd : NoDupIds table) :
    (enqueueConversion table p ow₁ f₁ t₁ n₁).1.jobId =
      (enqueueConversion (enqueueConversion table p ow₁ f₁ t₁ n₁).2 p ow₂ f₂ t₂ n₂).1.jobId ∧
    (enqueueConversion (enqueueConversion table p ow₁ f₁ t₁ n₁).2 p ow₂ f₂ t₂ n₂).2 =
      (enqueueConversion table p ow₁ f₁ t₁ n₁).2 ∧
    countJob (enqueueConversion table p ow₁ f₁ t₁ n₁).2
      (enqueueConversion table p ow₁ f₁ t₁ n₁).1.jobId = 1 ∧
    (∃ e, findJob (enqueueConversion table p ow₁ f₁ t₁ n₁).2
        (enqueueConversion table p ow₁ f₁ t₁ n₁).1.jobId = some e ∧
      (enqueueConversion (enqueueConversion table p ow₁ f₁ t₁ n₁).2 p ow₂ f₂ t₂ n₂).1.status =
        e.status) ∧
    NoDupIds (enqueueConversion table p ow₁ f₁ t₁ n₁).2 := by
  obtain ⟨o, ho⟩ := ho
  have hjid : computeJobId p f₂ = computeJobId p f₁ := by simp [computeJobId, ho]
  cases hfind : findJob table (computeJobId p f₁) with
  | some e =>
    obtain ⟨ha1, ha2, ha3⟩ := enqueueConversion_of_found table p ow₁ f₁ t₁ n₁ e hfind
    have hfind2 :
        findJob (enqueueConversion table p ow₁ f₁ t₁ n₁).2 (computeJobId p f₂) = some e := by
      rw [ha3, hjid]; exact hfind
    obtain ⟨hb1, hb2, hb3⟩ :=
      enqueueConversion_of_found (enqueueConversion table p ow₁ f₁ t₁ n₁).2 p ow₂ f₂ t₂ n₂
        e hfind2
    obtain ⟨hmem, hid⟩ := findJob_mem table (computeJobId p f₁) e hfind
    refine ⟨?_, ?_, ?_, ⟨e, ?_, ?_⟩, ?_⟩
    · rw [ha1, hb1, hjid]
    · rw [hb3, ha3]
    · rw [ha3, ha1]
      exact countJob_eq_one_of_nodup table (computeJobId p f₁) e hnd hmem hid
    · rw [ha3, ha1]; exact hfind
    · exact hb2
    · rw [ha3]; exact hnd
  | none =>
    obtain ⟨ha1, ha2⟩ := enqueueConversion_of_new table p ow₁ f₁ t₁ n₁ hfind
    have hnotmem : computeJobId p f₁ ∉ table.map Job.job_id :=
      (findJob_eq_none_iff table (computeJobId p f₁)).mp hfind
    have hfind2 :
        findJob (enqueueConversion table p ow₁ f₁ t₁ n₁).2 (computeJobId p f₂) =
          some { id := n₁, job_id := computeJobId p f₁, status := .pending, attempts := 0
                 max_attempts := MAX_ATTEMPTS, next_retry_at := t₁, payload := p
                 last_error := none, error_code := none, order_webhook_id := ow₁
                 created_at := t₁, last_attempted_at := none, completed_at := none } := by
      rw [ha2, hjid, findJob_append, hfind]
      simp [findJob]
    obtain ⟨hb1, hb2, hb3⟩ :=
      enqueueConversion_of_found (enqueueConversion table p ow₁ f₁ t₁ n₁).2 p ow₂ f₂ t₂ n₂
        _ hfind2
    refine ⟨?_, ?_, ?_, ?_, ?_⟩
    · rw [ha1, hb1, hjid]
    · rw [hb3]
    · rw [ha2, ha1]
      rw [countJob_append, countJob_eq_zero_of_not_mem table (computeJobId p f₁) hnotmem]
      simp [countJob]
    · refine ⟨_, ?_, hb2⟩
      rw [ha1]
      have := hfind2
      rw [hjid] at this
      exact this
    · rw [ha2, NoDupIds, List.map_append]
      rw [List.nodup_append]
      refine ⟨hnd, List.nodup_singleton _, ?_⟩
      intro a ha hb
      simp only [List.map_cons, List.map_nil, List.mem_singleton] at hb
      exact hnotmem (hb ▸ ha)

/-- Witness for C1 at an empty table and the sample payload. -/
theorem enqueueConversion_idempotent_witness :
    (enqueueConversion [] demoPayload none "f1" 0 1).1.jobId =
      (enqueueConversion (enqueueConversion [] demoPayload none "f1" 0 1).2
        demoPayload none "f2" 5 2).1.jobId ∧
    (enqueueConversion (enqueueConversion [] demoPayload none "f1" 0 1).2
        demoPayload none "f2" 5 2).2 =
      (enqueueConversion [] demoPayload none "f1" 0 1).2 ∧
    countJob (enqueueConversion [] demoPayload none "f1" 0 1).2
      (enqueueConversion [] demoPayload none "f1" 0 1).1.jobId = 1 ∧
    (∃ e, findJob (enqueueConversion [] demoPayload none "f1" 0 1).2
        (enqueueConversion [] demoPayload none "f1" 0 1).1.jobId = some e ∧
      (enqueueConversion (enqueueConversion [] demoPayload none "f1" 0 1).2
          demoPayload none "f2" 5 2).1.status = e.status) ∧
    NoDupIds (enqueueConversion [] demoPayload none "f1" 0 1).2 :=
  enqueueConversion_idempotent [] demoPayload none none "f1" "f2" 0 5 1 2
    ⟨"order-001", rfl⟩ (by simp [NoDupIds])

/-! ## C8: retryDeadJob -/

/-- C8: on a dead job, `retryDeadJob` reports success, resets the row to
pending with attempts 0, next_retry_at now and cleared error fields
(all other fields preserved), and leaves every other row untouched; when no
dead job with that id exists it reports failure and leaves the table
unchanged. -/
theorem retryDeadJob_spec (table : List Job) (jobId : String) (now : Int) :
    ((∀ j ∈ table, ¬(j.job_id = jobId ∧ j.status = .dead)) →
      (retryDeadJob table jobId now).1 =
        { success := false, message := "Job not found or not dead" } ∧
      (retryDeadJob table jobId now).2 = table) ∧
    (∀ job, table.find? (fun j => j.job_id == jobId ∧ j.status = .dead) = some job →
      job.status = .dead ∧
      (retryDeadJob table jobId now).1 = { success := true, message := "Job requeued" } ∧
      { job with status := JobStatus.pending, attempts := 0, next_retry_at := now
                 last_error := none, error_code := none } ∈
        (retryDeadJob table jobId now).2 ∧
      ∀ j ∈ table, j.id ≠ job.id → j ∈ (retryDeadJob table jobId now).2) := by
  constructor
  · intro h
    have hnone : table.find? (fun j => j.job_id == jobId ∧ j.status = .dead) = none := by
      rw [List.find?_eq_none]
      intro x hx hpx
      simp only [decide_eq_true_eq, beq_iff_eq] at hpx
      exact h x hx hpx
    unfold retryDeadJob
    simp only [hnone]
    exact ⟨by trivial, by trivial⟩
  · intro job hfind
    have hpred := List.find?_some hfind
    simp only [decide_eq_true_eq, beq_iff_eq] at hpred
    have hmem := List.mem_of_find?_eq_some hfind
    unfold retryDeadJob
    simp only [hfind]
    refine ⟨hpred.2, by trivial, ?_, ?_⟩
    · rw [updateJob]
      refine List.mem_map.mpr ⟨job, hmem, ?_⟩
      rw [if_pos rfl]
    · intro j hj hne
      rw [updateJob]
      exact List.mem_map.mpr ⟨j, hj, by rw [if_neg hne]⟩

/-- Witness for C8: a concrete dead job is requeued; a lookup on an empty
table fails without touching anything. -/
theorem retryDeadJob_spec_witness :
    (deadDemoJob.status = .dead ∧
      (retryDeadJob [deadDemoJob] "conv_123_order-001" 200).1 =
        { success := true, message := "Job requeued" } ∧
      { deadDemoJob with status := JobStatus.pending, attempts := 0, next_retry_at := 200
                         last_error := none, error_code := none } ∈
        (retryDeadJob [deadDemoJob] "conv_123_order-001" 200).2 ∧
      ∀ j ∈ [deadDemoJob], j.id ≠ deadDemoJob.id →
        j ∈ (retryDeadJob [deadDemoJob] "conv_123_order-001" 200).2) ∧
    ((retryDeadJob [] "missing" 0).1 =
        { success := false, message := "Job not found or not dead" } ∧
      (retryDeadJob [] "missing" 0).2 = ([] : List Job)) := by
  constructor
  · exact (retryDeadJob_spec [deadDemoJob] "conv_123_order-001" 200).2 deadDemoJob rfl
  · exact (retryDeadJob_spec [] "missing" 0).1 (by simp)

/-! ## C2: failure handling in processQueue -/

theorem find?_updateJob (t : List Job) (id : Nat) (f : Job → Job)
    (hf : ∀ j, (f j).id = j.id) (job : Job)
    (h : t.find? (fun j => j.id == id) = some job) :
    (updateJob t id f).find? (fun j => j.id == id) = some (f job) := by
  induction t with
  | nil => exact absurd h (by simp)
  | cons x xs ih =>
    by_cases hx : x.id = id
    · have hpx : (fun j : Job => j.id == id) x = true := by simpa using hx
      rw [List.find?_cons_of_pos xs hpx] at h
      injection h with h2
      subst h2
      show ((if x.id = id then f x else x) :: updateJob xs id f).find?
          (fun j => j.id == id) = some (f x)
      rw [if_pos hx]
      exact List.find?_cons_of_pos _ (by simp [hf, hx])
    · have hpx : ¬ (fun j : Job => j.id == id) x = true := by simpa using hx
      rw [List.find?_cons_of_neg xs hpx] at h
      show ((if x.id = id then f x else x) :: updateJob xs id f).find?
          (fun j => j.id == id) = some (f job)
      rw [if_neg hx]
      have hstep : List.find? (fun j : Job => j.id == id) (x :: updateJob xs id f) =
          List.find? (fun j : Job => j.id == id) (updateJob xs id f) :=
        List.find?_cons_of_neg (updateJob xs id f) hpx
      rw [hstep]
      exact ih h

/-- C2: a failed delivery attempt either schedules a retry — status failed,
attempts incremented, next_retry_at = now + backoff[min(attempts-1, 4)]
(table [30s, 2m, 8m, 32m, 2h]), error fields recorded, no failure row, no
alert — when the error is retryable and attempts remain, or dead-letters
the job — status dead, attempts incremented, exactly one failure row and
one alert appended. Concretely, a first attempt failing with HTTP 400 dies
immediately with no retry scheduled, and five consecutive HTTP 503
failures give status failed after attempts 1–4 and dead after attempt 5
with exactly one failure record. -/
theorem processQueue_failure_spec (st : QueueState) (job : Job) (e : DeliveryError)
    (now : Int) :
    (st.table.find? (fun j => j.id == job.id) = some job →
      (isRetryableError e.httpStatus = true → job.attempts + 1 < MAX_ATTEMPTS →
        (handleFailure st job e now).2 = true ∧
        (handleFailure st job e now).1.failures = st.failures ∧
        (handleFailure st job e now).1.alerts = st.alerts ∧
        (handleFailure st job e now).1.table.find? (fun j => j.id == job.id) =
          some { job with
            status := JobStatus.failed
            attempts := job.attempts + 1
            next_retry_at := now +
              ((BACKOFF_DELAYS.getD
                (min (job.attempts + 1 - 1) (BACKOFF_DELAYS.length - 1)) 0 : Nat) : Int) * 1000
            last_error := some e.message
            error_code := some (errorCodeOf e) }) ∧
      ((isRetryableError e.httpStatus = false ∨ MAX_ATTEMPTS ≤ job.attempts + 1) →
        (handleFailure st job e now).2 = false ∧
        (handleFailure st job e now).1.table.find? (fun j => j.id == job.id) =
          some { job with
            status := JobStatus.dead
            attempts := job.attempts + 1
            last_error := some e.message
            error_code := some (errorCodeOf e) } ∧
        (handleFailure st job e now).1.failures = st.failures ++
          [{ queue_id := job.id, job_id := job.job_id, error_message := e.message
             error_code := errorCodeOf e, http_status := e.httpStatus }] ∧
        (handleFailure st job e now).1.alerts = st.alerts ++
          [{ jobId := job.job_id, error := e.message, attempts := job.attempts + 1 }])) ∧
    (let q400 := processQueue
        { table := (enqueueConversion [] demoPayload none "f" 0 1).2
          failures := [], alerts := [] } (fun _ => .failure err400) 0 10
     q400.2 = { processed := 1, succeeded := 0, failed := 0, dead := 1 } ∧
       q400.1.table.map Job.status = [.dead] ∧
       q400.1.table.map Job.attempts = [1] ∧
       q400.1.table.map Job.next_retry_at = [0] ∧
       q400.1.failures.length = 1 ∧
       q400.1.alerts.length = 1) ∧
    (let q0 : QueueState := { table := (enqueueConversion [] demoPayload none "f" 0 1).2
                              failures := [], alerts := [] }
     let s1 := step503 q0 0
     let s2 := step503 s1 30000
     let s3 := step503 s2 150000
     let s4 := step503 s3 630000
     let s5 := step503 s4 2550000
     s1.table.map Job.status = [.failed] ∧ s1.table.map Job.attempts = [1] ∧
       s1.table.map Job.next_retry_at = [30000] ∧
       s2.table.map Job.status = [.failed] ∧ s2.table.map Job.attempts = [2] ∧
       s2.table.map Job.next_retry_at = [150000] ∧
       s3.table.map Job.status = [.failed] ∧ s3.table.map Job.attempts = [3] ∧
       s3.table.map Job.next_retry_at = [630000] ∧
       s4.table.map Job.status = [.failed] ∧ s4.table.map Job.attempts = [4] ∧
       s4.table.map Job.next_retry_at = [2550000] ∧
       s5.table.map Job.status = [.dead] ∧ s5.table.map Job.attempts = [5] ∧
       s5.failures.length = 1 ∧ s5.alerts.length = 1) := by
  refine ⟨?_, by decide, by decide⟩
  intro hfind
  constructor
  · intro hr hlt
    simp only [handleFailure]
    rw [if_pos ⟨hr, hlt⟩]
    refine ⟨rfl, rfl, rfl, ?_⟩
    exact find?_updateJob st.table job.id
      (fun j => { j with
        status := JobStatus.failed
        attempts := job.attempts + 1
        next_retry_at := now +
          ((BACKOFF_DELAYS.getD
            (min (job.attempts + 1 - 1) (BACKOFF_DELAYS.length - 1)) 0 : Nat) : Int) * 1000
        last_error := some e.message
        error_code := some (errorCodeOf e) })
      (fun j => rfl) job hfind
  · intro hc
    have hneg : ¬(isRetryableError e.httpStatus = true ∧ job.attempts + 1 < MAX_ATTEMPTS) := by
      rcases hc with h | h
      · rintro ⟨h1, _⟩; rw [h] at h1; exact Bool.false_ne_true h1
      · rintro ⟨_, h2⟩; omega
    simp only [handleFailure]
    rw [if_neg hneg]
    refine ⟨rfl, ?_, rfl, rfl⟩
    exact find?_updateJob st.table job.id
      (fun j => { j with
        status := JobStatus.dead
        attempts := job.attempts + 1
        last_error := some e.message
        error_code := some (errorCodeOf e) })
      (fun j => rfl) job hfind

/-- Witness for C2 at the sample job: a 503 schedules a retry, a 400
dead-letters. -/
theorem processQueue_failure_spec_witness :
    (handleFailure { table := [demoJob], failures := [], alerts := [] }
        demoJob err503 0).2 = true ∧
    (handleFailure { table := [demoJob], failures := [], alerts := [] }
        demoJob err400 0).2 = false := by
  have h1 := ((processQueue_failure_spec
    { table := [demoJob], failures := [], alerts := [] } demoJob err503 0).1
    (by decide)).1 (by decide) (by decide)
  have h2 := ((processQueue_failure_spec
    { table := [demoJob], failures := [], alerts := [] } demoJob err400 0).1
    (by decide)).2 (Or.inl (by decide))
  exact ⟨h1.1, h2.1⟩

/-! ## C9: concurrent processQueue is not protected by an atomic claim -/

/-- C9: the source's batch SELECT and the per-job status UPDATEs are
separate unguarded statements, so the interleaving select₁, select₂,
process₁, process₂ of two concurrent `processQueue` calls — each step one
database round-trip of the source — delivers the same job twice. This
refutes the required atomic claim step. -/
theorem processQueue_double_delivery :
    (runSchedule 0 10
        { qs := { table := (enqueueConversion [] demoPayload none "f" 0 1).2
                  failures := [], alerts := [] }
          deliveries := [], w1 := none, w2 := none }
        [.select1, .select2, .proc1, .proc2]).deliveries =
      ["conv_123_order-001", "conv_123_order-001"] ∧
    (runSchedule 0 10
        { qs := { table := (enqueueConversion [] demoPayload none "f" 0 1).2
                  failures := [], alerts := [] }
          deliveries := [], w1 := none, w2 := none }
        [.select1, .select2, .proc1, .proc2]).deliveries.count "conv_123_order-001" = 2 := by
  decide

/-! ## C5: session merge semantics -/

/-- C5 counterexample: a repeated tracking call with a new non-null
affiliateId/campaignId OVERWRITES the previously stored attribution —
trackSession is last-non-null-wins, not first-attribution-wins. -/
theorem trackSession_first_attribution_false :
    sessDemo.affiliate_id = some "AFF_OLD" ∧
    sessDemo.campaign_id = some "CAMP_OLD" ∧
    (trackSession [sessDemo] trackDemoReq "fresh" 100 30).1.map
        VisitorSession.affiliate_id = [some "AFF_NEW"] ∧
    (trackSession [sessDemo] trackDemoReq "fresh" 100 30).1.map
        VisitorSession.campaign_id = [some "CAMP_NEW"] ∧
    (some "AFF_NEW" : Option String) ≠ some "AFF_OLD" := by
  refine ⟨rfl, rfl, by decide, by decide, by decide⟩

/-- C5 amended: on a repeated call with the same sessionId, `trackSession`
writes each attribution field as (new value || stored value): a non-null
new affiliateId/campaignId replaces the stored one and the stored value
survives only when the new call omits the field; UTM fields merge the same
way, expires_at refreshes, identity fields stay; rows with other session
ids are untouched. `identifyVisitor`, by contrast, is first-attribution-
wins: on a session that already has affiliate and campaign, every row
keeps its affiliate_id and campaign_id. -/
theorem trackSession_merge_amended (store : List VisitorSession) (req : TrackRequest)
    (fresh : String) (now ttl : Int) (sid : String) (existing : VisitorSession)
    (hsid : req.sessionId = some sid)
    (hfind : store.find? (fun s => s.session_id == sid) = some existing) :
    (trackSession store req fresh now ttl).2 =
      { httpStatus := 200, status := "updated", sessionId := sid } ∧
    (∀ s ∈ store, s.session_id ≠ sid → s ∈ (trackSession store req fresh now ttl).1) ∧
    (∀ s ∈ store, s.session_id = sid →
      ∃ t ∈ (trackSession store req fresh now ttl).1,
        t.session_id = s.session_id ∧ t.site_id = s.site_id ∧
        t.visitor_id = s.visitor_id ∧ t.created_at = s.created_at ∧
        t.affiliate_id = jsOr req.affiliateId s.affiliate_id ∧
        t.campaign_id = jsOr req.campaignId s.campaign_id ∧
        t.utm_source = jsOr req.utm_source s.utm_source ∧
        t.expires_at = now + sessionTTLms ttl ∧
        (∀ b, req.affiliateId = some b → t.affiliate_id = some b) ∧
        (req.affiliateId = none → t.affiliate_id = s.affiliate_id)) ∧
    (∀ (store₂ : List VisitorSession) (req₂ : IdentifyRequest) (fresh₂ : String)
        (now₂ ttl₂ : Int) (sid₂ : String) (ex₂ : VisitorSession),
      req₂.sessionId = some sid₂ →
      store₂.find? (fun s => s.session_id == sid₂) = some ex₂ →
      ex₂.affiliate_id.isSome = true → ex₂.campaign_id.isSome = true →
      ∀ s ∈ store₂, ∃ t ∈ (identifyVisitor store₂ req₂ fresh₂ now₂ ttl₂).1,
        t.session_id = s.session_id ∧ t.affiliate_id = s.affiliate_id ∧
        t.campaign_id = s.campaign_id ∧ t.created_at = s.created_at) := by
  have hunfold : trackSession store req fresh now ttl =
      (store.map (fun s =>
          if s.session_id == sid then
            { s with
                affiliate_id := jsOr req.affiliateId s.affiliate_id
                campaign_id := jsOr req.campaignId s.campaign_id
                product_id := jsOr req.productId s.product_id
                utm_source := jsOr req.utm_source s.utm_source
                utm_medium := jsOr req.utm_medium s.utm_medium
                utm_campaign := jsOr req.utm_campaign s.utm_campaign
                utm_content := jsOr req.utm_content s.utm_content
                utm_term := jsOr req.utm_term s.utm_term
                expires_at := now + sessionTTLms ttl
                updated_at := now }
          else s),
        { httpStatus := 200, status := "updated", sessionId := sid }) := by
    rw [trackSession, hsid]
    simp only [Option.getD_some]
    rw [hfind]
  refine ⟨by rw [hunfold], ?_, ?_, ?_⟩
  · intro s hs hne
    rw [hunfold]
    exact List.mem_map.mpr ⟨s, hs, by rw [if_neg (by simpa using hne)]⟩
  · intro s hs hseq
    rw [hunfold]
    refine ⟨_, List.mem_map.mpr ⟨s, hs, rfl⟩, ?_⟩
    rw [if_pos (by simpa using hseq)]
    refine ⟨rfl, rfl, rfl, rfl, rfl, rfl, rfl, rfl, ?_, ?_⟩
    · intro b hb; rw [hb]; rfl
    · intro hb; rw [hb]; rfl
  · intro store₂ req₂ fresh₂ now₂ ttl₂ sid₂ ex₂ hsid₂ hfind₂ haff hcamp s hs
    have hguard : ¬(req₂.sessionId = none ∧ req₂.visitorId = none) := by
      rintro ⟨h1, _⟩; rw [hsid₂] at h1; cases h1
    have haffne : ¬ ex₂.affiliate_id = none := by
      intro h0; rw [h0] at haff; cases haff
    have hcampne : ¬ ex₂.campaign_id = none := by
      intro h0; rw [h0] at hcamp; cases hcamp
    rw [identifyVisitor, if_neg hguard, hsid₂]
    simp only [hfind₂]
    refine ⟨_, List.mem_map.mpr ⟨s, hs, rfl⟩, ?_⟩
    by_cases hmatch : s.session_id == ex₂.session_id
    · rw [if_pos hmatch]
      refine ⟨rfl, ?_, ?_, rfl⟩
      · have hng : ¬(req₂.affiliateId.isSome = true ∧ ex₂.affiliate_id = none) := by
          rintro ⟨_, h0⟩; exact haffne h0
        show (if req₂.affiliateId.isSome = true ∧ ex₂.affiliate_id = none
            then req₂.affiliateId else s.affiliate_id) = s.affiliate_id
        rw [if_neg hng]
      · have hng : ¬(req₂.campaignId.isSome = true ∧ ex₂.campaign_id = none) := by
          rintro ⟨_, h0⟩; exact hcampne h0
        show (if req₂.campaignId.isSome = true ∧ ex₂.campaign_id = none
            then req₂.campaignId else s.campaign_id) = s.campaign_id
        rw [if_neg hng]
    · rw [if_neg hmatch]
      exact ⟨rfl, rfl, rfl, rfl⟩

/-- Witness for C5's amended theorem at the sample store and request. -/
theorem trackSession_merge_amended_witness :
    (trackSession [sessDemo] trackDemoReq "fresh" 100 30).2 =
      { httpStatus := 200, status := "updated", sessionId := "s1" } ∧
    (∀ s ∈ [sessDemo], s.session_id = "s1" →
      ∃ t ∈ (trackSession [sessDemo] trackDemoReq "fresh" 100 30).1,
        t.session_id = s.session_id ∧ t.site_id = s.site_id ∧
        t.visitor_id = s.visitor_id ∧ t.created_at = s.created_at ∧
        t.affiliate_id = jsOr trackDemoReq.affiliateId s.affiliate_id ∧
        t.campaign_id = jsOr trackDemoReq.campaignId s.campaign_id ∧
        t.utm_source = jsOr trackDemoReq.utm_source s.utm_source ∧
        t.expires_at = 100 + sessionTTLms 30 ∧
        (∀ b, trackDemoReq.affiliateId = some b → t.affiliate_id = some b) ∧
        (trackDemoReq.affiliateId = none → t.affiliate_id = s.affiliate_id)) := by
  have h := trackSession_merge_amended [sessDemo] trackDemoReq "fresh" 100 30 "s1"
    sessDemo rfl rfl
  exact ⟨h.1, h.2.2.1⟩

/-! ## C10: buyer-note pattern matches inside ordinary words -/

/-- C10: the buyer-note pattern matches its key anywhere in the note and
the separator is optional, so ordinary words yield a non-null affiliateId:
"preferred" gives affiliate "erred" (via the "ref" inside it) and
"paid order" gives affiliate "order" (via the "aid" inside "paid"). -/
theorem parse_note_false_positive :
    (parseWixOrderPayload (.obj [("buyerNote", .str "preferred")])).map
        CanonicalOrder.affiliateId = .ok (.str "erred") ∧
    (parseWixOrderPayload (.obj [("buyerNote", .str "paid order")])).map
        CanonicalOrder.affiliateId = .ok (.str "order") ∧
    truthy (.str "erred") = true ∧ truthy (.str "order") = true := by
  exact ⟨rfl, rfl, rfl, rfl⟩

/-! ## C6: parser totality -/

theorem extractNoteAffiliate_ok (order : JSVal)
    (h : ∃ s, buyerNoteVal order = .str s) :
    ∃ v, extractNoteAffiliate order = .ok v := by
  obtain ⟨s, hs⟩ := h
  unfold extractNoteAffiliate
  rw [hs]
  exact ⟨_, rfl⟩

theorem buyerCFFold_ok : ∀ (fields : List JSVal),
    (∀ f ∈ fields, f.isNullish = false) →
    ∀ acc, ∃ v, buyerCFFold acc fields = .ok v := by
  intro fields
  induction fields with
  | nil => intro _ acc; exact ⟨acc, rfl⟩
  | cons f rest ih =>
    intro h acc
    have hf : f.isNullish = false := h f (List.mem_cons_self f rest)
    have hstep : buyerCFStep acc f =
        .ok (let nm := jsOrV (jsGet f "name") (jsGet f "key")
             let v := jsGet f "value"
             (if strInList nm ["aid", "affiliate_id", "affiliateId", "ref"] then
                jsOrV acc.1 v else acc.1,
              if strInList nm ["cid", "campaign_id", "campaignId"] then
                jsOrV acc.2.1 v else acc.2.1,
              if strInList nm ["sid", "session_id", "sessionId"] then
                jsOrV acc.2.2 v else acc.2.2)) := by
      unfold buyerCFStep
      rw [if_neg (by simp [hf])]
    show ∃ v, (match buyerCFStep acc f with
      | Except.error e => Except.error e
      | Except.ok acc2 => buyerCFFold acc2 rest) = Except.ok v
    rw [hstep]
    exact ih (fun g hg => h g (List.mem_cons_of_mem f hg)) _

theorem extractBuyerCF_ok (order : JSVal) (acc : JSVal × JSVal × JSVal)
    (h : ∀ fields, jsOrV (jsGet (jsGet order "buyerInfo") "customFields") (.arr []) =
      .arr fields → ∀ f ∈ fields, f.isNullish = false) :
    ∃ v, extractBuyerCF order acc = .ok v := by
  unfold extractBuyerCF
  cases hveq : jsOrV (jsGet (jsGet order "buyerInfo") "customFields") (.arr []) with
  | arr fields => exact buyerCFFold_ok fields (h fields hveq) acc
  | undef => exact ⟨acc, rfl⟩
  | null => exact ⟨acc, rfl⟩
  | bool b => exact ⟨acc, rfl⟩
  | num n => exact ⟨acc, rfl⟩
  | nan => exact ⟨acc, rfl⟩
  | str s => exact ⟨acc, rfl⟩
  | obj fs => exact ⟨acc, rfl⟩

theorem productsFold_ok : ∀ (items : List JSVal),
    (∀ i ∈ items, i.isNullish = false) →
    ∀ currency, ∃ v, productsFold currency items = .ok v := by
  intro items
  induction items with
  | nil => intro _ currency; exact ⟨[], rfl⟩
  | cons x rest ih =>
    intro h currency
    have hx : x.isNullish = false := h x (List.mem_cons_self x rest)
    have hitem : ∃ p, parseProductItem currency x = .ok p := by
      unfold parseProductItem
      rw [if_neg (by simp [hx])]
      exact ⟨_, rfl⟩
    obtain ⟨p, hp⟩ := hitem
    obtain ⟨ps, hps⟩ := ih (fun g hg => h g (List.mem_cons_of_mem x hg)) currency
    show ∃ v, (match parseProductItem currency x with
      | Except.error e => Except.error e
      | Except.ok q =>
        match productsFold currency rest with
        | Except.error e => Except.error e
        | Except.ok qs => Except.ok (q :: qs)) = Except.ok v
    rw [hp, hps]
    exact ⟨p :: ps, rfl⟩

theorem extractProducts_ok (order currency : JSVal)
    (h : ∃ items, jsOrV (jsGet order "lineItems") (jsOrV (jsGet order "items")
      (jsOrV (jsGet order "products") (.arr []))) = .arr items ∧
      ∀ i ∈ items, i.isNullish = false) :
    ∃ v, extractProducts order currency = .ok v := by
  obtain ⟨items, hveq, hi⟩ := h
  unfold extractProducts
  rw [hveq]
  exact productsFold_ok items hi currency

theorem siteUrlPart_ok (u : JSVal)
    (h : u.isNullish = true ∨ ∃ s, u = .str s) :
    ∃ v, siteUrlPart u = .ok v := by
  unfold siteUrlPart
  rcases h with hn | ⟨s, hs⟩
  · rw [if_pos hn]
    exact ⟨_, rfl⟩
  · subst hs
    show ∃ v, (if (JSVal.str s).isNullish = true then Except.ok JSVal.null
      else match JSVal.str s with
        | .str s =>
          match siteUrlScan s.data with
          | some cap => .ok (jsOrV (.str cap) .null)
          | none => .ok .null
        | _ => .error "TypeError: externalOrderUrl.match is not a function") = .ok v
    rw [if_neg (by simp [JSVal.isNullish])]
    show ∃ v, (match siteUrlScan s.data with
      | some cap => Except.ok (jsOrV (JSVal.str cap) JSVal.null)
      | none => Except.ok JSVal.null) = Except.ok v
    cases siteUrlScan s.data with
    | some cap => exact ⟨_, rfl⟩
    | none => exact ⟨_, rfl⟩

theorem extractSiteId_ok (body order : JSVal)
    (h : truthy (jsGet order "siteId") = true ∨ truthy (jsGet body "siteId") = true ∨
      truthy (jsGet body "instanceId") = true ∨
      (jsGet (jsGet order "channelInfo") "externalOrderUrl").isNullish = true ∨
      ∃ s, jsGet (jsGet order "channelInfo") "externalOrderUrl" = .str s) :
    ∃ v, extractSiteId body order = .ok v := by
  unfold extractSiteId
  by_cases h1 : truthy (jsGet order "siteId") = true
  · rw [if_pos h1]; exact ⟨_, rfl⟩
  · rw [if_neg h1]
    by_cases h2 : truthy (jsGet body "siteId") = true
    · rw [if_pos h2]; exact ⟨_, rfl⟩
    · rw [if_neg h2]
      by_cases h3 : truthy (jsGet body "instanceId") = true
      · rw [if_pos h3]; exact ⟨_, rfl⟩
      · rw [if_neg h3]
        rcases h with h | h | h | h | h
        · exact absurd h h1
        · exact absurd h h2
        · exact absurd h h3
        · exact siteUrlPart_ok _ (Or.inl h)
        · exact siteUrlPart_ok _ (Or.inr h)

/-- C6 counterexample: `parseWixOrderPayload` DOES throw on some inputs —
a numeric buyer note (`(42).match` is a TypeError), a null body
(`null.data`), and a truthy non-array lineItems (`"oops".map`). -/
theorem parseWixOrderPayload_throws :
    (parseWixOrderPayload (.obj [("buyerNote", .num 42)])).isOk = false ∧
    (parseWixOrderPayload .null).isOk = false ∧
    (parseWixOrderPayload (.obj [("lineItems", .str "oops")])).isOk = false := by
  exact ⟨rfl, rfl, rfl⟩

/-- C6 amended: the parser returns a CanonicalOrder without throwing on
every payload whose type-sensitive spots are well shaped (buyer note a
string or absent, buyer custom fields and line items arrays of non-nullish
entries, channel url a string or nullish unless short-circuited); on such
inputs missing fields resolve to null/undefined and the defaults hold:
currency "USD", eventType "OrderPaid", product price 0 and quantity 1. -/
theorem parseWixOrderPayload_amended :
    (∀ body, WellShapedPayload body → (parseWixOrderPayload body).isOk = true) ∧
    parseWixOrderPayload (.obj []) = .ok
      { orderId := .null, orderNumber := .null, totalAmount := .null
        currency := .str "USD", customerEmail := .null, customerName := .null
        affiliateId := .undef, campaignId := .undef, sessionId := (.undef)
        visitorId := .null, siteId := .null, products := []
        eventType := .str "OrderPaid", raw := .obj [] } ∧
    (parseWixOrderPayload (.obj [("lineItems", .arr [.obj []])])).map
        CanonicalOrder.products = .ok
      [{ externalProductId := .undef, name := .str "Unknown Product"
         price := .num 0, quantity := .num 1, currency := .str "USD" }] := by
  refine ⟨?_, by rfl, by rfl⟩
  intro body hws
  obtain ⟨hn, h1, h2, h3, h4⟩ := hws
  obtain ⟨a1, ha1⟩ := extractNoteAffiliate_ok (resolveOrder body) h1
  obtain ⟨acc, hacc⟩ := extractBuyerCF_ok (resolveOrder body) (attribStage23 body a1) h2
  obtain ⟨products, hprod⟩ :=
    extractProducts_ok (resolveOrder body) (priceInfo (resolveOrder body)).2 h3
  obtain ⟨siteId, hsite⟩ := extractSiteId_ok body (resolveOrder body) h4
  unfold parseWixOrderPayload
  rw [if_neg (by simp [hn])]
  simp only [ha1, hacc, hprod, hsite]
  rfl

/-- Witness for C6's amended theorem at a concrete well-shaped payload. -/
theorem parseWixOrderPayload_amended_witness :
    (parseWixOrderPayload (.obj [("buyerNote", .str "note"),
      ("lineItems", .arr [.obj [("name", .str "Thing")]])])).isOk = true := by
  apply parseWixOrderPayload_amended.1
  refine ⟨rfl, ⟨"note", rfl⟩, ?_, ⟨[.obj [("name", .str "Thing")]], rfl, ?_⟩,
    Or.inr (Or.inr (Or.inr (Or.inl rfl)))⟩
  · intro fields hf f hmem
    have hf2 : ([] : List JSVal) = fields := by injection hf
    rw [← hf2] at hmem
    exact absurd hmem (List.not_mem_nil f)
  · intro i hi
    rw [List.mem_singleton.mp hi]
    rfl

/-! ## C7: end-to-end scenario 6 -/

/-- C7 counterexample: parsing the order whose buyer note is
"ref=AFF123,cid=CAMP456" (no other attribution fields) and resolving with
an empty session store does NOT return campaignId "CAMP456" — the
buyer-note regex extracts only the affiliate, so campaignId is undefined. -/
theorem resolveAffiliate_scenario_counterexample :
    (parseWixOrderPayload noteDemoBody).toOption.bind
        (fun parsed => resolveAffiliate [] [] 0 parsed) ≠
      some { affiliateId := .str "AFF123", campaignId := .str "CAMP456"
             source := "order_direct" } := by
  intro h
  have h0 : (parseWixOrderPayload noteDemoBody).toOption.bind
      (fun parsed => resolveAffiliate [] [] 0 parsed) =
      some { affiliateId := .str "AFF123", campaignId := (.undef)
             source := "order_direct" } := by rfl
  rw [h0] at h
  have h2 := congrArg Attribution.campaignId (Option.some.inj h)
  exact JSVal.noConfusion h2

/-- C7 amended: the parser extracts affiliate "AFF123" from the note (the
"cid=CAMP456" part is ignored — campaignId stays undefined), and the
resolver with an empty session store short-circuits on step 1, returning
affiliate "AFF123", campaignId undefined, source "order_direct". -/
theorem resolveAffiliate_scenario_amended :
    (parseWixOrderPayload noteDemoBody).map CanonicalOrder.affiliateId =
      .ok (.str "AFF123") ∧
    (parseWixOrderPayload noteDemoBody).map CanonicalOrder.campaignId = .ok .undef ∧
    (parseWixOrderPayload noteDemoBody).toOption.bind
        (fun parsed => resolveAffiliate [] [] 0 parsed) =
      some { affiliateId := .str "AFF123", campaignId := (.undef)
             source := "order_direct" } := by
  exact ⟨rfl, rfl, rfl⟩

end Marketin
